import Mathlib

/-!
Verification development for `run_nima.py`, the single script of this
repository.  The script parses one CLI argument, builds a MobileNet-based
NIMA model, loads weights from `<script_dir>/model/mobilenet_weights.h5`,
scores one image, and prints `mean,std` formatted to two decimals.

The scoring statistics (`mean_score`, `std_score`) are imported by the
script from `utils.score_utils`, which is not part of this repository's
sources; those two functions are modelled from the spec's formulas.
Everything else is embedded from `run_nima.py` itself.
-/

namespace RunNima

/-- The fixed bucket values 1..10 (`si = arange(1, 11)` in score_utils style),
as rationals indexed by position 0..9. -/
def bucketValues : List ℚ := (List.range 10).map (fun i => (i : ℚ) + 1)

/-- Modelled from the spec: `mean = Σ(i=1..10) i · p[i-1]` — the weighted
mean of a 10-bucket score distribution, computed positionally as the sum of
`bucketValues` times the scores (`np.sum(scores * si)`).  The function
`mean_score` itself lives in `utils/score_utils.py`, which is not in the
repository sources. -/
def mean_score (scores : List ℚ) : ℚ :=
  (List.zipWith (· * ·) bucketValues scores).sum

/-- Modelled from the spec: `variance = Σ(i=1..10) (i − mean)² · p[i-1]`,
computed positionally over `bucketValues`. -/
def variance_score (scores : List ℚ) : ℚ :=
  (List.zipWith (fun v s => (v - mean_score scores) ^ 2 * s) bucketValues scores).sum

/-- Modelled from the spec: `std = sqrt(variance)`.  The function
`std_score` itself lives in `utils/score_utils.py`, which is not in the
repository sources. -/
noncomputable def std_score (scores : List ℚ) : ℝ :=
  Real.sqrt (variance_score scores)

/-- A 10-element probability distribution: ten entries, all non-negative,
summing to 1. -/
def IsDistribution (scores : List ℚ) : Prop :=
  scores.length = 10 ∧ (∀ q ∈ scores, 0 ≤ q) ∧ scores.sum = 1

/-- The uniform distribution `[0.1] × 10`. -/
def uniformDist : List ℚ := List.replicate 10 (1/10)

/-- The degenerate distribution concentrated on bucket `k` (1-based):
`p[k-1] = 1`, all other entries `0`. -/
def deltaDist (k : ℕ) : List ℚ :=
  (List.range 10).map (fun i => if i + 1 = k then 1 else 0)

/-! ### Decimal formatting (`f"{x:.2f}"`)

The script prints `f"{mean:.2f},{std:.2f}"`.  We model `"%.2f"` as:
scale by 100, round to the nearest integer, and print `<int>.<2 digits>`.
(Python rounds exact halves of the underlying binary float to even; no
value appearing in the claims sits on a half, so the tie rule is
irrelevant here.) -/

/-- The character of decimal digit `d < 10` (codepoint `48 + d`). -/
def digitChar (d : ℕ) : Char := Char.ofNat (48 + d)

/-- Fuel-driven digit accumulation, most significant digit first. -/
def natDigitsAux : ℕ → ℕ → List Char → List Char
  | 0, _, acc => acc
  | fuel+1, n, acc =>
    if n < 10 then digitChar n :: acc
    else natDigitsAux fuel (n / 10) (digitChar (n % 10) :: acc)

/-- The decimal digits of `n`, most significant first (`"0"` for `0`). -/
def natDigits (n : ℕ) : List Char := natDigitsAux (n + 1) n []

/-- The characters of `n / 100` printed with two decimal places, where
`n` is the already-rounded value scaled by 100. -/
def format2CharsOfInt (n : ℤ) : List Char :=
  (if n < 0 then ['-'] else []) ++ natDigits (n.natAbs / 100) ++
    ['.', digitChar (n.natAbs / 10 % 10), digitChar (n.natAbs % 10)]

/-- `f"{q:.2f}"` for a rational value. -/
def format2 (q : ℚ) : String := String.mk (format2CharsOfInt (round (q * 100)))

/-- `f"{x:.2f}"` for a real value (the exact-real model of the float `std`). -/
noncomputable def format2R (x : ℝ) : String :=
  String.mk (format2CharsOfInt (round (x * 100)))

/-- A character list that renders one value with exactly two digits after
the decimal point: some non-empty integer part (digits, possibly signed),
then `'.'`, then exactly two digit characters. -/
def twoDecChars (l : List Char) : Prop :=
  ∃ pre d₁ d₂, l = pre ++ ['.', d₁, d₂] ∧ d₁.isDigit = true ∧ d₂.isDigit = true ∧
    pre ≠ [] ∧ '.' ∉ pre ∧ ∀ c ∈ pre, c.isDigit = true ∨ c = '-'

/-- The shape of a score line: `<mean>,<std>`, both two-decimal values,
exactly one comma, no whitespace anywhere. -/
def scoreLineForm (s : String) : Prop :=
  ∃ a b, s.data = a ++ [','] ++ b ∧ twoDecChars a ∧ twoDecChars b ∧
    ',' ∉ a ∧ ',' ∉ b ∧ ∀ c ∈ s.data, c.isWhitespace = false

/-! ### The model topology (`load_nima_model`, lines 10–16)

The keras calls are external collaborators; we embed the topology they
are asked to build symbolically, layer by layer, exactly as the source
constructs it. -/

/-- One layer of the constructed network, mirroring the keras calls. -/
inductive NimaLayer where
  | mobileNetBackbone (includeTop : Bool) (pooling : String)
  | dropout (rate : ℚ)
  | dense (units : ℕ) (activation : String)
deriving DecidableEq

/-- The constructed model: its layer stack and the weights file it was
loaded from (`none` until `load_weights` has run). -/
structure NimaModel where
  layers : List NimaLayer
  loadedWeightsFrom : Option String
deriving DecidableEq

/-- `load_nima_model`: `MobileNet((None,None,3), include_top=False,
pooling='avg', weights=None)`, then `Dropout(0.75)`, then
`Dense(10, activation='softmax')`, then `model.load_weights(weights_path)`. -/
def load_nima_model (weights_path : String) : NimaModel :=
  { layers := [NimaLayer.mobileNetBackbone false "avg",
               NimaLayer.dropout 0.75,
               NimaLayer.dense 10 "softmax"],
    loadedWeightsFrom := some weights_path }

/-! ### The process model (`main`, lines 28–45)

`main` is embedded as a function from an explicit environment (`World`)
to an explicit effect record (`RunResult`).  `exitCode = none` models
termination by an uncaught exception (a non-zero process exit with a
framework diagnostic); `some n` models `sys.exit(n)` / normal return. -/

/-- The environment of one invocation: `sys.argv` (script name included),
the current working directory, the script's directory
(`os.path.dirname(os.path.abspath(__file__))`), whether reading each path
as weights / as an image succeeds, and the model's output distribution
for an image. -/
structure World where
  argv : List String
  cwd : String
  scriptDir : String
  weightsOk : String → Bool
  imageOk : String → Bool
  predict : String → List ℚ

/-- The observable effects of one invocation. -/
structure RunResult where
  stdout : List String
  exitCode : Option ℕ
  modelConstructed : Bool
  imageRead : Bool
  filesRead : List String
  filesWritten : List String

/-- The usage message of line 30. -/
def usageMessage : String := "Usage: python run_nima.py <image_path>"

/-- `os.path.join(a, b)` (POSIX): `b` absolute replaces `a`; otherwise
concatenation, inserting `'/'` unless `a` is empty or already ends in it. -/
def osJoin (a b : String) : String :=
  if b.data.head? = some '/' then b
  else if a.data = [] ∨ a.data.getLast? = some '/' then a ++ b
  else a ++ "/" ++ b

/-- Line 39: `os.path.join(BASE_DIR, 'model', 'mobilenet_weights.h5')`. -/
def weightsPathOf (baseDir : String) : String :=
  osJoin (osJoin baseDir "model") "mobilenet_weights.h5"

/-- The printed line of line 45: `f"{mean:.2f},{std:.2f}"`. -/
noncomputable def scoreLine (scores : List ℚ) : String :=
  format2 (mean_score scores) ++ "," ++ format2R (std_score scores)

/-- The embedding of `main` (lines 28–45): usage check, weights-path
construction, model construction + weight loading, image load + scoring,
and the final print.  Here `image_path = sys.argv[1] = w.argv.getD 1 ""`
and `weights_path = weightsPathOf w.scriptDir`. -/
noncomputable def run (w : World) : RunResult :=
  if w.argv.length ≠ 2 then
    { stdout := [usageMessage], exitCode := some 1, modelConstructed := false,
      imageRead := false, filesRead := [], filesWritten := [] }
  else if w.weightsOk (weightsPathOf w.scriptDir) = false then
    { stdout := [], exitCode := none, modelConstructed := true,
      imageRead := false, filesRead := [weightsPathOf w.scriptDir],
      filesWritten := [] }
  else if w.imageOk (w.argv.getD 1 "") = false then
    { stdout := [], exitCode := none, modelConstructed := true,
      imageRead := true, filesRead := [weightsPathOf w.scriptDir, w.argv.getD 1 ""],
      filesWritten := [] }
  else
    { stdout := [scoreLine (w.predict (w.argv.getD 1 ""))], exitCode := some 0,
      modelConstructed := true, imageRead := true,
      filesRead := [weightsPathOf w.scriptDir, w.argv.getD 1 ""],
      filesWritten := [] }

/-! ### Helper lemmas -/

theorem digitChar_isDigit {d : ℕ} (h : d < 10) : (digitChar d).isDigit = true := by
  interval_cases d <;> decide

theorem isDigit_ne_dot {c : Char} (h : c.isDigit = true) : c ≠ '.' := by
  rintro rfl; simp at h

theorem isDigit_ne_comma {c : Char} (h : c.isDigit = true) : c ≠ ',' := by
  rintro rfl; simp at h

theorem isDigit_not_ws {c : Char} (h : c.isDigit = true) : c.isWhitespace = false := by
  rcases hw : c.isWhitespace with _ | _
  · rfl
  · exfalso
    simp [Char.isWhitespace] at hw
    simp [Char.isDigit] at h
    rcases hw with ((h1 | h1) | h1) | h1 <;> subst h1 <;> simp_all

theorem natDigitsAux_suffix (fuel : ℕ) :
    ∀ n acc, List.IsSuffix acc (natDigitsAux fuel n acc) := by
  induction fuel with
  | zero => intro n acc; exact List.suffix_refl acc
  | succ fuel ih =>
    intro n acc
    rw [natDigitsAux]
    by_cases h : n < 10
    · rw [if_pos h]; exact List.suffix_cons _ _
    · rw [if_neg h]
      exact (List.suffix_cons _ _).trans (ih (n / 10) _)

theorem natDigitsAux_mem (fuel : ℕ) :
    ∀ n acc c, c ∈ natDigitsAux fuel n acc →
      c ∈ acc ∨ ∃ d, d < 10 ∧ c = digitChar d := by
  induction fuel with
  | zero => intro n acc c hc; exact Or.inl hc
  | succ fuel ih =>
    intro n acc c hc
    rw [natDigitsAux] at hc
    by_cases h : n < 10
    · rw [if_pos h] at hc
      rcases List.mem_cons.mp hc with rfl | hc
      · exact Or.inr ⟨n, h, rfl⟩
      · exact Or.inl hc
    · rw [if_neg h] at hc
      rcases ih (n / 10) _ c hc with hc | hc
      · rcases List.mem_cons.mp hc with rfl | hc
        · exact Or.inr ⟨n % 10, Nat.mod_lt _ (by norm_num), rfl⟩
        · exact Or.inl hc
      · exact Or.inr hc

theorem natDigits_mem {n : ℕ} {c : Char} (hc : c ∈ natDigits n) :
    ∃ d, d < 10 ∧ c = digitChar d := by
  rcases natDigitsAux_mem (n + 1) n [] c hc with h | h
  · simp at h
  · exact h

theorem natDigits_isDigit {n : ℕ} {c : Char} (hc : c ∈ natDigits n) :
    c.isDigit = true := by
  obtain ⟨d, hd, rfl⟩ := natDigits_mem hc
  exact digitChar_isDigit hd

theorem natDigits_ne_nil (n : ℕ) : natDigits n ≠ [] := by
  rw [natDigits, natDigitsAux]
  by_cases h : n < 10
  · rw [if_pos h]; simp
  · rw [if_neg h]
    intro hnil
    have := (natDigitsAux_suffix n (n / 10) [digitChar (n % 10)]).length_le
    rw [hnil] at this
    simp at this

theorem format2CharsOfInt_twoDec (n : ℤ) : twoDecChars (format2CharsOfInt n) := by
  refine ⟨(if n < 0 then ['-'] else []) ++ natDigits (n.natAbs / 100),
    digitChar (n.natAbs / 10 % 10), digitChar (n.natAbs % 10), ?_, ?_, ?_, ?_, ?_, ?_⟩
  · rw [format2CharsOfInt, List.append_assoc]
  · exact digitChar_isDigit (Nat.mod_lt _ (by norm_num))
  · exact digitChar_isDigit (Nat.mod_lt _ (by norm_num))
  · simp [natDigits_ne_nil]
  · intro hdot
    rcases List.mem_append.mp hdot with h | h
    · by_cases hn : n < 0
      · rw [if_pos hn] at h; simp at h
      · rw [if_neg hn] at h; simp at h
    · exact isDigit_ne_dot (natDigits_isDigit h) rfl
  · intro c hc
    rcases List.mem_append.mp hc with h | h
    · by_cases hn : n < 0
      · rw [if_pos hn] at h; simp at h; right; exact h
      · rw [if_neg hn] at h; simp at h
    · exact Or.inl (natDigits_isDigit h)

theorem format2CharsOfInt_mem {n : ℤ} {c : Char} (hc : c ∈ format2CharsOfInt n) :
    c.isDigit = true ∨ c = '-' ∨ c = '.' := by
  rw [format2CharsOfInt] at hc
  rcases List.mem_append.mp hc with h | h
  · rcases List.mem_append.mp h with h | h
    · by_cases hn : n < 0
      · rw [if_pos hn] at h; simp at h; right; left; exact h
      · rw [if_neg hn] at h; simp at h
    · exact Or.inl (natDigits_isDigit h)
  · rcases List.mem_cons.mp h with rfl | h
    · right; right; rfl
    · rcases List.mem_cons.mp h with rfl | h
      · exact Or.inl (digitChar_isDigit (Nat.mod_lt _ (by norm_num)))
      · rcases List.mem_cons.mp h with rfl | h
        · exact Or.inl (digitChar_isDigit (Nat.mod_lt _ (by norm_num)))
        · simp at h

theorem format2CharsOfInt_no_comma (n : ℤ) : ',' ∉ format2CharsOfInt n := by
  intro hc
  rcases format2CharsOfInt_mem hc with h | h | h
  · exact isDigit_ne_comma h rfl
  · simp at h
  · simp at h

theorem format2CharsOfInt_no_ws {n : ℤ} {c : Char}
    (hc : c ∈ format2CharsOfInt n) : c.isWhitespace = false := by
  rcases format2CharsOfInt_mem hc with h | h | h
  · exact isDigit_not_ws h
  · subst h; rfl
  · subst h; rfl

theorem scoreLineForm_mk (m k : ℤ) :
    scoreLineForm (String.mk (format2CharsOfInt m) ++ "," ++
      String.mk (format2CharsOfInt k)) := by
  refine ⟨format2CharsOfInt m, format2CharsOfInt k, rfl,
    format2CharsOfInt_twoDec m, format2CharsOfInt_twoDec k,
    format2CharsOfInt_no_comma m, format2CharsOfInt_no_comma k, ?_⟩
  intro c hc
  have hc' : c ∈ format2CharsOfInt m ++ [','] ++ format2CharsOfInt k := hc
  rcases List.mem_append.mp hc' with h | h
  · rcases List.mem_append.mp h with h | h
    · exact format2CharsOfInt_no_ws h
    · simp at h; subst h; rfl
  · exact format2CharsOfInt_no_ws h

theorem scoreLineForm_scoreLine (scores : List ℚ) :
    scoreLineForm (scoreLine scores) :=
  scoreLineForm_mk (round (mean_score scores * 100)) (round (std_score scores * 100))

theorem weightsPathOf_eq (s : String) (h1 : s.data ≠ [])
    (h2 : s.data.getLast? ≠ some '/') :
    weightsPathOf s = s ++ "/model/mobilenet_weights.h5" := by
  obtain ⟨l⟩ := s
  have hin : osJoin ⟨l⟩ "model" = (⟨l⟩ : String) ++ "/" ++ "model" := by
    rw [osJoin, if_neg (by simp), if_neg (by simp_all)]
  have hc : ¬(((⟨l⟩ : String) ++ "/" ++ "model").data = [] ∨
      ((⟨l⟩ : String) ++ "/" ++ "model").data.getLast? = some '/') := by
    show ¬((l ++ "/".data ++ "model".data) = [] ∨
      (l ++ "/".data ++ "model".data).getLast? = some '/')
    rw [List.getLast?_append_of_ne_nil _ (by simp)]
    simp
  rw [weightsPathOf, hin, osJoin, if_neg (by simp), if_neg hc]
  show (⟨l ++ "/".data ++ "model".data ++ "/".data ++
      "mobilenet_weights.h5".data⟩ : String) =
      ⟨l ++ "/model/mobilenet_weights.h5".data⟩
  simp

theorem mean_score_uniform : mean_score uniformDist = 11/2 := by
  norm_num [mean_score, uniformDist, bucketValues, List.range_succ,
    List.replicate_succ]

theorem variance_score_uniform : variance_score uniformDist = 33/4 := by
  norm_num [variance_score, mean_score, uniformDist, bucketValues,
    List.range_succ, List.replicate_succ]

theorem std_score_uniform : std_score uniformDist = Real.sqrt (33/4 : ℝ) := by
  rw [std_score, variance_score_uniform]
  norm_num

theorem round_std_uniform : round (std_score uniformDist * 100) = 287 := by
  rw [std_score_uniform]
  have h1 : (2.865 : ℝ) ≤ Real.sqrt (33/4) := by
    rw [Real.le_sqrt' (by norm_num)]; norm_num
  have h2 : Real.sqrt (33/4 : ℝ) < 2.875 := by
    rw [Real.sqrt_lt' (by norm_num)]; norm_num
  rw [round_eq, Int.floor_eq_iff]
  constructor <;> push_cast <;> nlinarith

theorem format2R_std_uniform : format2R (std_score uniformDist) = "2.87" := by
  rw [format2R, round_std_uniform]
  rfl

theorem format2_mean_uniform : format2 (mean_score uniformDist) = "5.50" := by
  rw [format2, mean_score_uniform,
    show ((11:ℚ)/2 * 100) = ((550:ℤ):ℚ) by norm_num, round_intCast]
  rfl

theorem mean_score_delta1 : mean_score (deltaDist 1) = 1 := by
  norm_num [mean_score, deltaDist, bucketValues, List.range_succ]

theorem mean_score_delta10 : mean_score (deltaDist 10) = 10 := by
  norm_num [mean_score, deltaDist, bucketValues, List.range_succ]

theorem variance_score_delta1 : variance_score (deltaDist 1) = 0 := by
  norm_num [variance_score, mean_score, deltaDist, bucketValues,
    List.range_succ]

theorem variance_score_delta10 : variance_score (deltaDist 10) = 0 := by
  norm_num [variance_score, mean_score, deltaDist, bucketValues,
    List.range_succ]

theorem std_score_delta1 : std_score (deltaDist 1) = 0 := by
  rw [std_score, variance_score_delta1]
  simp

theorem std_score_delta10 : std_score (deltaDist 10) = 0 := by
  rw [std_score, variance_score_delta10]
  simp

theorem format2R_zero : format2R 0 = "0.00" := by
  rw [format2R, zero_mul, round_zero]
  rfl

theorem format2_one : format2 1 = "1.00" := by
  rw [format2, show ((1:ℚ) * 100) = ((100:ℤ):ℚ) by norm_num, round_intCast]
  rfl

theorem format2_ten : format2 10 = "10.00" := by
  rw [format2, show ((10:ℚ) * 100) = ((1000:ℤ):ℚ) by norm_num, round_intCast]
  rfl

theorem usageMessage_not_scoreLine : ¬ scoreLineForm usageMessage := by
  rintro ⟨a, b, -, -, -, -, -, hws⟩
  have hmem : ' ' ∈ usageMessage.data := by decide
  exact absurd (hws ' ' hmem) (by decide)

theorem uniformDist_isDistribution : IsDistribution uniformDist := by
  refine ⟨rfl, ?_, ?_⟩
  · intro q hq
    rw [uniformDist, List.mem_replicate] at hq
    rw [hq.2]
    norm_num
  · rw [uniformDist, List.sum_replicate]
    norm_num [nsmul_eq_mul]

/-! ### The claims -/

/-- C1: for every 10-element probability distribution `p` (entries
non-negative, summing to 1), the mean returned by the scorer equals the
weighted sum over buckets `i ∈ 1..10` of `i · p[i-1]`. -/
theorem c1_mean_formula (p : List ℚ) (hp : IsDistribution p) :
    mean_score p = ∑ i ∈ Finset.Icc (1:ℕ) 10, (i : ℚ) * p.getD (i - 1) 0 := by
  obtain ⟨hlen, -, -⟩ := hp
  match p, hlen with
  | [a,b,c,d,e,f,g,h,i,j], _ =>
    norm_num [mean_score, bucketValues, List.range_succ, Finset.sum_Icc_succ_top]
    ring

/-- C1 witness: `c1_mean_formula` instantiated at the uniform distribution. -/
theorem c1_mean_formula_check :
    IsDistribution uniformDist ∧
      mean_score uniformDist =
        ∑ i ∈ Finset.Icc (1:ℕ) 10, (i : ℚ) * uniformDist.getD (i - 1) 0 :=
  ⟨uniformDist_isDistribution, c1_mean_formula uniformDist uniformDist_isDistribution⟩

/-- C2: for every 10-element probability distribution `p`, the standard
deviation returned by the scorer equals the square root of
`Σ_{i=1..10} (i − mean p)² · p[i-1]`, the mean being as in C1. -/
theorem c2_std_formula (p : List ℚ) (hp : IsDistribution p) :
    std_score p = Real.sqrt ((∑ i ∈ Finset.Icc (1:ℕ) 10,
      ((i : ℚ) - mean_score p) ^ 2 * p.getD (i - 1) 0 : ℚ) : ℝ) := by
  obtain ⟨hlen, -, -⟩ := hp
  rw [std_score]
  congr 1
  norm_cast
  match p, hlen with
  | [a,b,c,d,e,f,g,h,i,j], _ =>
    norm_num [variance_score, mean_score, bucketValues, List.range_succ,
      Finset.sum_Icc_succ_top]
    ring

/-- C2 witness: `c2_std_formula` instantiated at the uniform distribution. -/
theorem c2_std_formula_check :
    IsDistribution uniformDist ∧
      std_score uniformDist = Real.sqrt ((∑ i ∈ Finset.Icc (1:ℕ) 10,
        ((i : ℚ) - mean_score uniformDist) ^ 2 * uniformDist.getD (i - 1) 0 : ℚ) : ℝ) :=
  ⟨uniformDist_isDistribution, c2_std_formula uniformDist uniformDist_isDistribution⟩

/-- C3: with an argument count other than exactly one image path
(`len(sys.argv) ≠ 2`), the process prints the usage message to standard
output (and no score line), exits with status 1, never constructs the
model and never reads the image. -/
theorem c3_usage_error (w : World) (h : w.argv.length ≠ 2) :
    (run w).stdout = [usageMessage] ∧ (run w).exitCode = some 1 ∧
      (∀ s ∈ (run w).stdout, ¬ scoreLineForm s) ∧
      (run w).modelConstructed = false ∧ (run w).imageRead = false := by
  rw [run, if_pos h]
  refine ⟨rfl, rfl, ?_, rfl, rfl⟩
  intro s hs
  have hs' : s = usageMessage := by simpa using hs
  rw [hs']
  exact usageMessage_not_scoreLine

/-- C3 witness: invocation with no argument at all (`sys.argv` is just the
script name). -/
theorem c3_usage_error_check :
    (run ⟨["run_nima.py"], "/work", "/scripts", fun _ => true, fun _ => true,
        fun _ => uniformDist⟩).stdout = [usageMessage] ∧
      (run ⟨["run_nima.py"], "/work", "/scripts", fun _ => true, fun _ => true,
        fun _ => uniformDist⟩).exitCode = some 1 ∧
      (∀ s ∈ (run ⟨["run_nima.py"], "/work", "/scripts", fun _ => true,
        fun _ => true, fun _ => uniformDist⟩).stdout, ¬ scoreLineForm s) ∧
      (run ⟨["run_nima.py"], "/work", "/scripts", fun _ => true, fun _ => true,
        fun _ => uniformDist⟩).modelConstructed = false ∧
      (run ⟨["run_nima.py"], "/work", "/scripts", fun _ => true, fun _ => true,
        fun _ => uniformDist⟩).imageRead = false :=
  c3_usage_error _ (by decide)

/-- C4: on every successful run the program prints exactly one line,
`<mean>,<std>`, both values with exactly two digits after the decimal
point, separated by a single comma, with no whitespace anywhere in the
line. -/
theorem c4_success_line (w : World) (h2 : w.argv.length = 2)
    (hw : w.weightsOk (weightsPathOf w.scriptDir) = true)
    (hi : w.imageOk (w.argv.getD 1 "") = true) :
    (run w).stdout = [scoreLine (w.predict (w.argv.getD 1 ""))] ∧
      (run w).exitCode = some 0 ∧
      ∀ s ∈ (run w).stdout, scoreLineForm s := by
  rw [run, if_neg (by simp [h2]), if_neg (by rw [hw]; simp), if_neg (by rw [hi]; simp)]
  refine ⟨rfl, rfl, ?_⟩
  intro s hs
  have hs' : s = scoreLine (w.predict (w.argv.getD 1 "")) := by simpa using hs
  rw [hs']
  exact scoreLineForm_scoreLine _

/-- C4 witness: a successful run on a world where everything loads and the
model predicts the uniform distribution. -/
theorem c4_success_line_check :
    (run ⟨["run_nima.py", "img.jpg"], "/work", "/scripts", fun _ => true,
        fun _ => true, fun _ => uniformDist⟩).stdout =
      [scoreLine ((fun _ => uniformDist : String → List ℚ)
        ((["run_nima.py", "img.jpg"] : List String).getD 1 ""))] ∧
      (run ⟨["run_nima.py", "img.jpg"], "/work", "/scripts", fun _ => true,
        fun _ => true, fun _ => uniformDist⟩).exitCode = some 0 ∧
      ∀ s ∈ (run ⟨["run_nima.py", "img.jpg"], "/work", "/scripts",
        fun _ => true, fun _ => true, fun _ => uniformDist⟩).stdout,
        scoreLineForm s :=
  c4_success_line _ (by decide) rfl rfl

/-- C5: for the uniform distribution the scorer's mean is `11/2`, printed
to two decimals as `5.50`, and its standard deviation prints to two
decimals as `2.87`. -/
theorem c5_uniform_scores :
    mean_score uniformDist = 11/2 ∧
      format2 (mean_score uniformDist) = "5.50" ∧
      format2R (std_score uniformDist) = "2.87" :=
  ⟨mean_score_uniform, format2_mean_uniform, format2R_std_uniform⟩

/-- C6: a degenerate distribution concentrated on bucket `k ∈ {1, 10}` has
mean `k` and standard deviation `0`; bucket 1 prints as `1.00,0.00` and
bucket 10 as `10.00,0.00`. -/
theorem c6_degenerate_scores (k : ℕ) (hk : k = 1 ∨ k = 10) :
    mean_score (deltaDist k) = (k : ℚ) ∧ std_score (deltaDist k) = 0 ∧
      format2R (std_score (deltaDist k)) = "0.00" ∧
      format2 (mean_score (deltaDist 1)) = "1.00" ∧
      format2 (mean_score (deltaDist 10)) = "10.00" := by
  have f1 : format2 (mean_score (deltaDist 1)) = "1.00" := by
    rw [mean_score_delta1]; exact format2_one
  have f10 : format2 (mean_score (deltaDist 10)) = "10.00" := by
    rw [mean_score_delta10]; exact format2_ten
  rcases hk with rfl | rfl
  · exact ⟨by rw [mean_score_delta1]; norm_num, std_score_delta1,
      by rw [std_score_delta1]; exact format2R_zero, f1, f10⟩
  · exact ⟨by rw [mean_score_delta10]; norm_num, std_score_delta10,
      by rw [std_score_delta10]; exact format2R_zero, f1, f10⟩

/-- C6 witness: `c6_degenerate_scores` instantiated at bucket 10. -/
theorem c6_degenerate_scores_check :
    ((10:ℕ) = 1 ∨ (10:ℕ) = 10) ∧
      (mean_score (deltaDist 10) = ((10:ℕ) : ℚ) ∧ std_score (deltaDist 10) = 0 ∧
        format2R (std_score (deltaDist 10)) = "0.00" ∧
        format2 (mean_score (deltaDist 1)) = "1.00" ∧
        format2 (mean_score (deltaDist 10)) = "10.00") :=
  ⟨Or.inr rfl, c6_degenerate_scores 10 (Or.inr rfl)⟩

/-- C7: for any non-usage invocation the first (weights) file read is
exactly `<script_directory>/model/mobilenet_weights.h5` (the script
directory joined with components `model` and `mobilenet_weights.h5`), the
program writes no file, and the run is independent of the current working
directory. -/
theorem c7_weights_path (w : World) (cwd' : String) (h2 : w.argv.length = 2)
    (hdir : w.scriptDir.data ≠ []) (hsl : w.scriptDir.data.getLast? ≠ some '/') :
    (run w).filesRead.head? = some (w.scriptDir ++ "/model/mobilenet_weights.h5") ∧
      (run w).filesWritten = [] ∧
      run { w with cwd := cwd' } = run w ∧
      weightsPathOf w.scriptDir = w.scriptDir ++ "/model/mobilenet_weights.h5" := by
  have hwp := weightsPathOf_eq w.scriptDir hdir hsl
  refine ⟨?_, ?_, rfl, hwp⟩
  · rw [run, if_neg (by simp [h2])]
    by_cases hwk : w.weightsOk (weightsPathOf w.scriptDir) = false
    · rw [if_pos hwk, hwp]; rfl
    · rw [if_neg hwk]
      by_cases hik : w.imageOk (w.argv.getD 1 "") = false
      · rw [if_pos hik, hwp]; rfl
      · rw [if_neg hik, hwp]; rfl
  · rw [run]
    split
    · rfl
    split
    · rfl
    split
    · rfl
    · rfl

/-- C7 witness: a concrete world with script directory `/scripts`. -/
theorem c7_weights_path_check :
    (run ⟨["run_nima.py", "img.jpg"], "/work", "/scripts", fun _ => true,
        fun _ => true, fun _ => uniformDist⟩).filesRead.head? =
      some (("/scripts" : String) ++ "/model/mobilenet_weights.h5") ∧
      (run ⟨["run_nima.py", "img.jpg"], "/work", "/scripts", fun _ => true,
        fun _ => true, fun _ => uniformDist⟩).filesWritten = [] ∧
      run { (⟨["run_nima.py", "img.jpg"], "/work", "/scripts", fun _ => true,
        fun _ => true, fun _ => uniformDist⟩ : World) with cwd := "/elsewhere" } =
        run ⟨["run_nima.py", "img.jpg"], "/work", "/scripts", fun _ => true,
          fun _ => true, fun _ => uniformDist⟩ ∧
      weightsPathOf "/scripts" = ("/scripts" : String) ++ "/model/mobilenet_weights.h5" :=
  c7_weights_path _ "/elsewhere" (by decide) (by decide) (by decide)

/-- C8: the model loader builds exactly the topology MobileNet backbone
(no top, global average pooling) → dropout(0.75) → dense(10, softmax),
and loads the given weights file into it. -/
theorem c8_model_topology (p : String) :
    (load_nima_model p).layers = [NimaLayer.mobileNetBackbone false "avg",
      NimaLayer.dropout 0.75, NimaLayer.dense 10 "softmax"] ∧
      (load_nima_model p).loadedWeightsFrom = some p :=
  ⟨rfl, rfl⟩

/-- C9: every run either prints exactly one well-formed `mean,std` line and
exits 0, or prints only the usage message and exits 1, or prints nothing
and dies with an uncaught error (non-zero); no partial output exists. -/
theorem c9_all_or_nothing (w : World) :
    ((run w).exitCode = some 0 ∧
      ∃ line, (run w).stdout = [line] ∧ scoreLineForm line) ∨
    ((run w).exitCode = some 1 ∧ (run w).stdout = [usageMessage]) ∨
    ((run w).exitCode = none ∧ (run w).stdout = []) := by
  rw [run]
  split
  · right; left; exact ⟨rfl, rfl⟩
  split
  · right; right; exact ⟨rfl, rfl⟩
  split
  · right; right; exact ⟨rfl, rfl⟩
  · left; exact ⟨rfl, _, rfl, scoreLineForm_scoreLine _⟩

/-- C10: when both the weights file and the image file are invalid, the
run fails at the weight-loading step: the model construction has happened,
the image is never read, the only file read is the weights file, nothing
is printed, and the exit is abnormal. -/
theorem c10_weights_before_image (w : World) (h2 : w.argv.length = 2)
    (hw : w.weightsOk (weightsPathOf w.scriptDir) = false)
    (_hi : w.imageOk (w.argv.getD 1 "") = false) :
    (run w).imageRead = false ∧ (run w).modelConstructed = true ∧
      (run w).exitCode = none ∧ (run w).stdout = [] ∧
      (run w).filesRead = [weightsPathOf w.scriptDir] := by
  rw [run, if_neg (by simp [h2]), if_pos hw]
  exact ⟨rfl, rfl, rfl, rfl, rfl⟩

/-- C10 witness: a world where both the weights file and the image file
fail to load. -/
theorem c10_weights_before_image_check :
    (run ⟨["run_nima.py", "img.jpg"], "/work", "/scripts", fun _ => false,
        fun _ => false, fun _ => uniformDist⟩).imageRead = false ∧
      (run ⟨["run_nima.py", "img.jpg"], "/work", "/scripts", fun _ => false,
        fun _ => false, fun _ => uniformDist⟩).modelConstructed = true ∧
      (run ⟨["run_nima.py", "img.jpg"], "/work", "/scripts", fun _ => false,
        fun _ => false, fun _ => uniformDist⟩).exitCode = none ∧
      (run ⟨["run_nima.py", "img.jpg"], "/work", "/scripts", fun _ => false,
        fun _ => false, fun _ => uniformDist⟩).stdout = [] ∧
      (run ⟨["run_nima.py", "img.jpg"], "/work", "/scripts", fun _ => false,
        fun _ => false, fun _ => uniformDist⟩).filesRead =
        [weightsPathOf "/scripts"] :=
  c10_weights_before_image _ (by decide) rfl rfl

end RunNima
